import Mathlib

/-!
Shallow embedding of the `cancellable` crate (src/cancellation_result.rs,
src/cancellable.rs, src/cancellable_handle.rs).

The work loop spawned by `Cancellable::spawn_with_callback` repeatedly runs

    tokio::select! {
        _ = cancellation_token.cancelled() => break,
        result = self.run() => match result {
            Ok(CancellationResult::Item(result)) =>
                if let Err(_result) = callback(result) { break },
            Ok(CancellationResult::Continue) => {}
            Ok(CancellationResult::Break) => break,
            Err(e) => return Err(e),
        }
    }

and yields `Ok(())` when the loop breaks.  We embed one execution of that
loop as a fold over a finite trace of `SelectEvent`s, where each event
records which branch of the `select!` race resolved first in that
iteration: `cancelled` (the cancellation signal had been triggered and its
branch won the race) or `step r` (the `run()` invocation completed first
with result `r`).  A `run()` invocation that is permanently suspended
contributes no `step` event, so a trace may simply stop, leaving the loop
`pending`.  The embedding returns the unconsumed suffix of the trace, which
makes "no further `run()` invocation occurs" expressible: events after a
terminating one are returned untouched.

`CancellationToken` is modelled as a token identity (`Nat`) together with a
`World` recording which tokens have been cancelled; `cancel` on a token is
level-triggered and never unset, as in `tokio_util::sync::CancellationToken`.
-/

set_option linter.unusedVariables false

/-- Result of a single iteration of the service loop
(`CancellationResult` in src/cancellation_result.rs). -/
inductive CancellationResult (T : Type) where
  /-- Indicates that the loop should continue and wraps the value yielded by
  the finished iteration. -/
  | Item : T → CancellationResult T
  /-- Indicates that the loop should continue. -/
  | Continue : CancellationResult T
  /-- Indicates that the loop should end. -/
  | Break : CancellationResult T
  deriving DecidableEq

/-- Embedding of `CancellationResult::item(t: impl Into<T>)`.  The `Into<T>`
instance of the Rust source is made explicit as the conversion function
`into`; the body is `Self::Item(t.into())`. -/
def CancellationResult.item {α T : Type} (into : α → T) (a : α) : CancellationResult T :=
  CancellationResult.Item (into a)

/-- Embedding of `impl<T> From<T> for CancellationResult<T>`, whose body is
`Self::Item(value)`.  (`from` is a Lean keyword, hence the name `ofValue`.) -/
def CancellationResult.ofValue {T : Type} (v : T) : CancellationResult T :=
  CancellationResult.Item v

/-- Identity of a `tokio_util::sync::CancellationToken`. -/
abbrev CancellationToken := Nat

/-- Cancellation state of all tokens: the list of token identities that have
been cancelled.  A token is never un-cancelled. -/
abbrev World := List CancellationToken

/-- Embedding of `CancellationToken::cancel`: marks the token cancelled. -/
def cancelToken (w : World) (t : CancellationToken) : World := t :: w

/-- Embedding of `CancellationToken::is_cancelled`. -/
def isCancelled (w : World) (t : CancellationToken) : Bool := w.contains t

/-- Resolution of one `tokio::select!` race inside the work loop of
`spawn_with_callback` (src/cancellable.rs).  `cancelled` records that the
`cancellation_token.cancelled()` branch won the race (possible exactly when
the signal has been triggered); `step r` records that the `self.run()`
branch completed first, with `r` the value returned by `run()`.  A
permanently suspended `run()` invocation contributes no `step` event. -/
inductive SelectEvent (T E : Type) where
  /-- The cancellation branch of the race resolved first. -/
  | cancelled : SelectEvent T E
  /-- The `run()` branch of the race resolved first with result `r`. -/
  | step : Except E (CancellationResult T) → SelectEvent T E

/-- Terminal status of the spawned loop.  `ok` is the `Ok(())` produced when
the loop breaks; `err e` is the `return Err(e)` path; `pending` means the
loop has not terminated on the events seen so far (it is still running,
e.g. suspended inside `run()`). -/
inductive LoopResult (E : Type) where
  /-- The loop broke and returned `Ok(())`. -/
  | ok : LoopResult E
  /-- The loop returned `Err(e)` from a failed `run()` invocation. -/
  | err : E → LoopResult E
  /-- The loop is still running after the given trace. -/
  | pending : LoopResult E
  deriving DecidableEq

/-- Observable result of running the work loop on a trace: its terminal
status, the values passed to the callback in order, the callback's state
(meaningful when the loop is still `pending`), and the unconsumed suffix
of the trace (events after the iteration that ended the loop). -/
structure LoopRun (σ T E : Type) where
  /-- Terminal status of the loop on this trace. -/
  outcome : LoopResult E
  /-- Values passed to the callback, in invocation order. -/
  delivered : List T
  /-- State of the (stateful, `FnMut`) callback after the trace. -/
  cbState : σ
  /-- Events not consumed because the loop had already ended. -/
  remaining : List (SelectEvent T E)

/-- Embedding of the work loop spawned by `spawn_with_callback`
(src/cancellable.rs).  The callback `cb` embeds the `FnMut(Self::Result) ->
Result<(), Self::Result>` closure: its captured mutable state has type `σ`
and a rejection carries back a value of type `T`.  Each trace event is
interpreted exactly as the matching arm of the source's `select!`/`match`:
`cancelled` breaks with `ok`; `Item v` passes `v` to the callback and breaks
with `ok` if the callback rejects; `Continue` loops; `Break` breaks with
`ok`; `Err e` returns `err e`. -/
def spawnLoop {σ T E : Type} (cb : σ → T → Except T σ) :
    σ → List (SelectEvent T E) → LoopRun σ T E
  | s, [] => ⟨LoopResult.pending, [], s, []⟩
  | s, SelectEvent.cancelled :: rest => ⟨LoopResult.ok, [], s, rest⟩
  | s, SelectEvent.step (Except.error e) :: rest => ⟨LoopResult.err e, [], s, rest⟩
  | s, SelectEvent.step (Except.ok CancellationResult.Continue) :: rest => spawnLoop cb s rest
  | s, SelectEvent.step (Except.ok CancellationResult.Break) :: rest => ⟨LoopResult.ok, [], s, rest⟩
  | s, SelectEvent.step (Except.ok (CancellationResult.Item v)) :: rest =>
    match cb s v with
    | Except.ok s' =>
      let r := spawnLoop cb s' rest
      ⟨r.outcome, v :: r.delivered, r.cbState, r.remaining⟩
    | Except.error _ => ⟨LoopResult.ok, [v], s, rest⟩

/-- The payloads of the `Item` outcomes in a trace, in order. -/
def itemValues {T E : Type} : List (SelectEvent T E) → List T
  | [] => []
  | SelectEvent.step (Except.ok (CancellationResult.Item v)) :: rest => v :: itemValues rest
  | _ :: rest => itemValues rest

/-- Embedding of `CancellableHandle<T>` (src/cancellable_handle.rs): the
join handle of the background task (its eventual inner `Result<(), E>`,
here including `pending` for a task that has not finished), the
cancellation token stored in the handle, and the service's communication
handle `inner`. -/
structure CancellableHandle (H E : Type) where
  /-- Result of the spawned task, as observed by awaiting the join handle. -/
  join_handle : LoopResult E
  /-- Token stored in the handle; `cancel()` cancels exactly this token. -/
  cancellation_token : CancellationToken
  /-- The service's communication handle, produced by `new_handle()`. -/
  inner : H

/-- Embedding of `CancellableHandle::new(join_handle, cancellation_token,
inner)` (src/cancellable_handle.rs, the three-parameter constructor). -/
def CancellableHandle.new {H E : Type} (join_handle : LoopResult E)
    (cancellation_token : CancellationToken) (inner : H) : CancellableHandle H E :=
  ⟨join_handle, cancellation_token, inner⟩

/-- Embedding of `CancellableHandle::cancel`, whose body is
`self.cancellation_token.cancel()`: it cancels the token stored in the
handle and nothing else; it does not block. -/
def CancellableHandle.cancel {H E : Type} (h : CancellableHandle H E) (w : World) : World :=
  cancelToken w h.cancellation_token

/-- Awaiting the handle: the `Future` impl polls the join handle, so the
awaited value is the task's result.  The embedded tasks neither panic nor
are aborted, so the outer `JoinError` level is always `Ok` and is elided. -/
def CancellableHandle.await {H E : Type} (h : CancellableHandle H E) : LoopResult E :=
  h.join_handle

/-- Embedding of `impl Deref for CancellableHandle`: `&self.inner`. -/
def CancellableHandle.deref {H E : Type} (h : CancellableHandle H E) : H := h.inner

/-- Embedding of `impl DerefMut for CancellableHandle`: mutable access to
`inner`, modelled as applying an update function to the `inner` field. -/
def CancellableHandle.derefMut {H E : Type} (h : CancellableHandle H E) (f : H → H) :
    CancellableHandle H E :=
  { h with inner := f h.inner }

/-- Dropping a `CancellableHandle`: the crate defines no `Drop` impl, so
dropping is field-wise.  Dropping a `tokio::task::JoinHandle` detaches the
task without aborting it, and dropping a `tokio_util` `CancellationToken`
does not cancel it (the spec's §5 cancellation-signal primitive); hence the
world's cancellation state is untouched. -/
def CancellableHandle.drop {H E : Type} (h : CancellableHandle H E) (w : World) : World := w

/-- The service-supplied part of the `Cancellable` trait that the
orchestration calls directly: `new_handle`, a stateful one-time handle
constructor (`async fn new_handle(&mut self) -> Self::Handle`).  The `run`
method's completions are supplied by the `SelectEvent` trace, since `run`
may suspend and race against cancellation. -/
structure Service (S H : Type) where
  /-- Embedding of `new_handle`: produces the handle and the mutated
  service state. -/
  new_handle : S → H × S

/-- Result of `spawn_with_callback`.  The source calls `self.new_handle()`
once, spawns the loop task, and then evaluates
`CancellableHandle::new(join_handle, inner)` — two arguments, although the
constructor takes three (`join_handle, cancellation_token, inner`); the
token that was passed to `spawn_with_callback` has already been moved into
the spawned task.  The missing middle argument is therefore left open here:
`handle_of_token` maps any choice of that argument to the handle the call
would build. -/
structure Spawned (σ S H T E : Type) where
  /-- The spawned background task's run on the given trace. -/
  task : LoopRun σ T E
  /-- The handle returned to the caller, as a function of the constructor's
  missing `cancellation_token` argument. -/
  handle_of_token : CancellationToken → CancellableHandle H E
  /-- The service state owned by the spawned task when its loop starts
  (the state left after the single `new_handle()` call). -/
  service_state_in_task : S

/-- Embedding of `Cancellable::spawn_with_callback` (src/cancellable.rs):
call `new_handle` once on the service, spawn the loop (run here on the
trace `events`, with `cancellation_token` moved into the task's race), and
build the returned handle from the loop's join result and the `inner`
handle.  The constructor call in the source omits the token argument, so
the handle is returned as a function of that argument. -/
def spawnWithCallback {σ S H T E : Type} (svc : Service S H) (s : S)
    (cancellation_token : CancellationToken)
    (cb : σ → T → Except T σ) (cs : σ)
    (events : List (SelectEvent T E)) : Spawned σ S H T E :=
  let p := svc.new_handle s
  let task := spawnLoop cb cs events
  ⟨task, fun missing_token => CancellableHandle.new task.outcome missing_token p.1, p.2⟩

/-- The default callback used by `spawn`: the closure `|_| Ok(())`, which
has no captured state and accepts every value. -/
def defaultCallback {T : Type} : Unit → T → Except T Unit :=
  fun u _ => Except.ok u

/-- Embedding of `Cancellable::spawn` (src/cancellable.rs): delegates to
`spawn_with_callback(cancellation_token, |_| Ok(()))`. -/
def spawn {S H T E : Type} (svc : Service S H) (s : S)
    (cancellation_token : CancellationToken)
    (events : List (SelectEvent T E)) : Spawned Unit S H T E :=
  spawnWithCallback svc s cancellation_token defaultCallback () events

/-- Instrumentation wrapper used to state "`new_handle()` is called exactly
once": the wrapped service counts its own `new_handle` invocations in its
state. -/
def countingService {S H : Type} (svc : Service S H) : Service (S × Nat) H :=
  ⟨fun p => ((svc.new_handle p.1).1, ((svc.new_handle p.1).2, p.2 + 1))⟩

/-- Modelled from the spec's words, for the refinement comparison of claim
C9 only: "accepts every produced value and never signals failure —
equivalent to discarding results while keeping the loop alive to
`Stop`/cancellation/error".  The loop outcome of a result-discarding loop:
`Item` and `Continue` keep it alive, cancellation and `Break` end it
successfully, an error ends it with that error. -/
def specDiscardingOutcome {T E : Type} : List (SelectEvent T E) → LoopResult E
  | [] => LoopResult.pending
  | SelectEvent.cancelled :: _ => LoopResult.ok
  | SelectEvent.step (Except.error e) :: _ => LoopResult.err e
  | SelectEvent.step (Except.ok CancellationResult.Continue) :: rest => specDiscardingOutcome rest
  | SelectEvent.step (Except.ok CancellationResult.Break) :: _ => LoopResult.ok
  | SelectEvent.step (Except.ok (CancellationResult.Item _)) :: rest => specDiscardingOutcome rest

/-- Concrete service used by witnesses: trivial state and handle. -/
def demoService : Service Unit Unit := ⟨fun s => ((), s)⟩

/-- Concrete always-accepting callback used by witnesses. -/
def cbAccept : Unit → Nat → Except Nat Unit := fun u _ => Except.ok u

/-- Concrete always-rejecting callback used by witnesses. -/
def cbReject : Unit → Nat → Except Nat Unit := fun _ v => Except.error v

/-- Concrete callback used by witnesses: rejects exactly the value `3`. -/
def cbReject3 : Unit → Nat → Except Nat Unit :=
  fun u v => if v = 3 then Except.error v else Except.ok u
/-- Composition of loop runs: if the loop is still pending after `pre`, then
running it on `pre ++ rest` runs `pre` first (delivering its values and
reaching its callback state) and then continues with `rest`. -/
theorem spawnLoop_append {σ T E : Type} (cb : σ → T → Except T σ)
    (pre rest : List (SelectEvent T E)) :
    ∀ s : σ, (spawnLoop cb s pre).outcome = LoopResult.pending →
    spawnLoop cb s (pre ++ rest) =
      ⟨(spawnLoop cb (spawnLoop cb s pre).cbState rest).outcome,
       (spawnLoop cb s pre).delivered
         ++ (spawnLoop cb (spawnLoop cb s pre).cbState rest).delivered,
       (spawnLoop cb (spawnLoop cb s pre).cbState rest).cbState,
       (spawnLoop cb (spawnLoop cb s pre).cbState rest).remaining⟩ := by
  induction pre with
  | nil =>
    intro s h
    simp [spawnLoop]
  | cons ev pre ih =>
    intro s h
    match ev with
    | SelectEvent.cancelled => simp [spawnLoop] at h
    | SelectEvent.step (Except.error e) => simp [spawnLoop] at h
    | SelectEvent.step (Except.ok CancellationResult.Break) => simp [spawnLoop] at h
    | SelectEvent.step (Except.ok CancellationResult.Continue) =>
      simp only [spawnLoop, List.cons_append] at h ⊢
      exact ih s h
    | SelectEvent.step (Except.ok (CancellationResult.Item v)) =>
      cases hcb : cb s v with
      | error r => simp [spawnLoop, hcb] at h
      | ok s' =>
        have h' : (spawnLoop cb s' pre).outcome = LoopResult.pending := by
          simpa [spawnLoop, hcb] using h
        simp only [spawnLoop, List.cons_append, List.append_eq, hcb]
        rw [ih s' h']

/-- Characterization of the delivered values: the loop consumes a prefix of
the trace, and the values passed to the callback are exactly the `Item`
payloads of that consumed prefix, in order. -/
theorem spawnLoop_delivered_eq_items {σ T E : Type} (cb : σ → T → Except T σ) :
    ∀ (s : σ) (events : List (SelectEvent T E)),
    ∃ consumed, consumed ++ (spawnLoop cb s events).remaining = events ∧
      (spawnLoop cb s events).delivered = itemValues consumed := by
  intro s events
  induction events generalizing s with
  | nil => exact ⟨[], by simp [spawnLoop, itemValues]⟩
  | cons ev rest ih =>
    match ev with
    | SelectEvent.cancelled =>
      exact ⟨[SelectEvent.cancelled], by simp [spawnLoop, itemValues]⟩
    | SelectEvent.step (Except.error e) =>
      exact ⟨[SelectEvent.step (Except.error e)], by simp [spawnLoop, itemValues]⟩
    | SelectEvent.step (Except.ok CancellationResult.Break) =>
      exact ⟨[SelectEvent.step (Except.ok CancellationResult.Break)],
        by simp [spawnLoop, itemValues]⟩
    | SelectEvent.step (Except.ok CancellationResult.Continue) =>
      obtain ⟨c, hc, hd⟩ := ih s
      exact ⟨SelectEvent.step (Except.ok CancellationResult.Continue) :: c,
        by simp [spawnLoop, itemValues, hc, hd]⟩
    | SelectEvent.step (Except.ok (CancellationResult.Item v)) =>
      cases hcb : cb s v with
      | ok s' =>
        obtain ⟨c, hc, hd⟩ := ih s'
        exact ⟨SelectEvent.step (Except.ok (CancellationResult.Item v)) :: c,
          by simp [spawnLoop, itemValues, hcb, hc, hd]⟩
      | error r =>
        exact ⟨[SelectEvent.step (Except.ok (CancellationResult.Item v))],
          by simp [spawnLoop, itemValues, hcb]⟩

/-- The loop outcome under the default callback coincides with the
spec-modelled outcome of a result-discarding loop. -/
theorem spawnLoop_default_outcome {T E : Type} :
    ∀ (u : Unit) (events : List (SelectEvent T E)),
    (spawnLoop defaultCallback u events).outcome = specDiscardingOutcome events := by
  intro u events
  induction events generalizing u with
  | nil => rfl
  | cons ev rest ih =>
    match ev with
    | SelectEvent.cancelled => rfl
    | SelectEvent.step (Except.error e) => rfl
    | SelectEvent.step (Except.ok CancellationResult.Break) => rfl
    | SelectEvent.step (Except.ok CancellationResult.Continue) =>
      simpa [spawnLoop, specDiscardingOutcome] using ih u
    | SelectEvent.step (Except.ok (CancellationResult.Item v)) =>
      simpa [spawnLoop, specDiscardingOutcome, defaultCallback] using ih u

/-- C2: for every execution in which some `run()` invocation returns an
error `E`, the background loop ends, no further `run()` invocation occurs
(the events after the failing one are left unconsumed), the callback is not
invoked for that iteration (the delivered values are exactly those of the
prefix before the failure), and awaiting the `CancellableHandle` yields
exactly that error as the inner error, propagated verbatim. -/
theorem c2_step_error_is_terminal {σ S H T E : Type} (svc : Service S H) (s : S)
    (tok t : CancellationToken) (cb : σ → T → Except T σ) (cs : σ)
    (pre post : List (SelectEvent T E)) (e : E)
    (hpre : (spawnLoop cb cs pre).outcome = LoopResult.pending) :
    CancellableHandle.await
        ((spawnWithCallback svc s tok cb cs
            (pre ++ SelectEvent.step (Except.error e) :: post)).handle_of_token t)
      = LoopResult.err e ∧
    (spawnWithCallback svc s tok cb cs
        (pre ++ SelectEvent.step (Except.error e) :: post)).task.delivered
      = (spawnLoop cb cs pre).delivered ∧
    (spawnWithCallback svc s tok cb cs
        (pre ++ SelectEvent.step (Except.error e) :: post)).task.remaining = post := by
  have h := spawnLoop_append cb pre (SelectEvent.step (Except.error e) :: post) cs hpre
  refine ⟨?_, ?_, ?_⟩ <;>
    simp [spawnWithCallback, CancellableHandle.await, CancellableHandle.new, h, spawnLoop]

/-- Witness for C2 at a concrete input: one `Continue` iteration, then a
`run()` failure with error `5`; the loop ends with inner error `5`, the
callback got nothing, and no event after the failure is consumed. -/
theorem c2_witness :
    (spawnLoop cbAccept ()
        ([SelectEvent.step (Except.ok CancellationResult.Continue)] :
          List (SelectEvent Nat Nat))).outcome = LoopResult.pending ∧
    (CancellableHandle.await
        ((spawnWithCallback demoService () 0 cbAccept ()
            ([SelectEvent.step (Except.ok CancellationResult.Continue)]
              ++ SelectEvent.step (Except.error 5) :: [])).handle_of_token 0)
      = LoopResult.err 5 ∧
    (spawnWithCallback demoService () 0 cbAccept ()
        ([SelectEvent.step (Except.ok CancellationResult.Continue)]
          ++ SelectEvent.step (Except.error 5) :: [])).task.delivered
      = (spawnLoop cbAccept ()
          ([SelectEvent.step (Except.ok CancellationResult.Continue)] :
            List (SelectEvent Nat Nat))).delivered ∧
    (spawnWithCallback demoService () 0 cbAccept ()
        ([SelectEvent.step (Except.ok CancellationResult.Continue)]
          ++ SelectEvent.step (Except.error 5) :: [])).task.remaining = []) :=
  ⟨rfl, c2_step_error_is_terminal demoService () 0 0 cbAccept ()
    [SelectEvent.step (Except.ok CancellationResult.Continue)] [] 5 rfl⟩

/-- C3: if the cancellation signal wins a race while the loop is still
running (`cancelled` event after a prefix on which the loop is pending —
possible exactly when the signal has been triggered, in particular when the
in-flight `run()` is permanently suspended and can never win the race), the
loop ends and awaiting the `CancellableHandle` yields the successful
outcome; the in-flight step is abandoned: every event after the
cancellation, including any would-be completion of that step, is left
unconsumed and delivers nothing. -/
theorem c3_cancellation_yields_ok {σ S H T E : Type} (svc : Service S H) (s : S)
    (tok t : CancellationToken) (cb : σ → T → Except T σ) (cs : σ)
    (pre post : List (SelectEvent T E))
    (hpre : (spawnLoop cb cs pre).outcome = LoopResult.pending) :
    CancellableHandle.await
        ((spawnWithCallback svc s tok cb cs
            (pre ++ SelectEvent.cancelled :: post)).handle_of_token t)
      = LoopResult.ok ∧
    (spawnWithCallback svc s tok cb cs
        (pre ++ SelectEvent.cancelled :: post)).task.delivered
      = (spawnLoop cb cs pre).delivered ∧
    (spawnWithCallback svc s tok cb cs
        (pre ++ SelectEvent.cancelled :: post)).task.remaining = post := by
  have h := spawnLoop_append cb pre (SelectEvent.cancelled :: post) cs hpre
  refine ⟨?_, ?_, ?_⟩ <;>
    simp [spawnWithCallback, CancellableHandle.await, CancellableHandle.new, h, spawnLoop]

/-- Witness for C3 at a concrete input: the loop is pending on the empty
prefix (the first `run()` is suspended), cancellation wins the first race,
and the would-be completion of the suspended step (an `Item 9` event placed
after the cancellation) is abandoned. -/
theorem c3_witness :
    (spawnLoop cbAccept () ([] : List (SelectEvent Nat Nat))).outcome
      = LoopResult.pending ∧
    (CancellableHandle.await
        ((spawnWithCallback demoService () 0 cbAccept ()
            (([] : List (SelectEvent Nat Nat)) ++ SelectEvent.cancelled ::
              [SelectEvent.step (Except.ok (CancellationResult.Item 9))])).handle_of_token 0)
      = LoopResult.ok ∧
    (spawnWithCallback demoService () 0 cbAccept ()
        (([] : List (SelectEvent Nat Nat)) ++ SelectEvent.cancelled ::
          [SelectEvent.step (Except.ok (CancellationResult.Item 9))])).task.delivered
      = (spawnLoop cbAccept () ([] : List (SelectEvent Nat Nat))).delivered ∧
    (spawnWithCallback demoService () 0 cbAccept ()
        (([] : List (SelectEvent Nat Nat)) ++ SelectEvent.cancelled ::
          [SelectEvent.step (Except.ok (CancellationResult.Item 9))])).task.remaining
      = [SelectEvent.step (Except.ok (CancellationResult.Item 9))]) :=
  ⟨rfl, c3_cancellation_yields_ok demoService () 0 0 cbAccept () []
    [SelectEvent.step (Except.ok (CancellationResult.Item 9))] rfl⟩

/-- C4: if the callback rejects a produced value, the loop stops, no
further `run()` invocation occurs (events after that iteration are left
unconsumed), the recorded outcome is the successful `ok` — which carries no
value, so the rejected value is not surfaced to the awaiter — and the
rejected value was passed to the callback exactly once (it appears once at
the end of the delivered list and is never delivered again). -/
theorem c4_callback_rejection_stops_ok {σ S H T E : Type} (svc : Service S H) (s : S)
    (tok t : CancellationToken) (cb : σ → T → Except T σ) (cs : σ)
    (pre post : List (SelectEvent T E)) (v r : T)
    (hpre : (spawnLoop cb cs pre).outcome = LoopResult.pending)
    (hrej : cb (spawnLoop cb cs pre).cbState v = Except.error r) :
    CancellableHandle.await
        ((spawnWithCallback svc s tok cb cs
            (pre ++ SelectEvent.step (Except.ok (CancellationResult.Item v)) :: post)).handle_of_token t)
      = LoopResult.ok ∧
    (spawnWithCallback svc s tok cb cs
        (pre ++ SelectEvent.step (Except.ok (CancellationResult.Item v)) :: post)).task.delivered
      = (spawnLoop cb cs pre).delivered ++ [v] ∧
    (spawnWithCallback svc s tok cb cs
        (pre ++ SelectEvent.step (Except.ok (CancellationResult.Item v)) :: post)).task.remaining
      = post := by
  have h := spawnLoop_append cb pre
    (SelectEvent.step (Except.ok (CancellationResult.Item v)) :: post) cs hpre
  refine ⟨?_, ?_, ?_⟩ <;>
    simp [spawnWithCallback, CancellableHandle.await, CancellableHandle.new, h, spawnLoop, hrej]

/-- Witness for C4 at a concrete input: an accepted `Item 1`, then an
`Item 3` that the callback rejects; the loop ends `ok`, delivered `[1, 3]`
(the rejected `3` delivered exactly once), and the later `Item 4` event is
never consumed. -/
theorem c4_witness :
    (spawnLoop cbReject3 ()
        ([SelectEvent.step (Except.ok (CancellationResult.Item 1))] :
          List (SelectEvent Nat Nat))).outcome = LoopResult.pending ∧
    cbReject3 (spawnLoop cbReject3 ()
        ([SelectEvent.step (Except.ok (CancellationResult.Item 1))] :
          List (SelectEvent Nat Nat))).cbState 3 = Except.error 3 ∧
    (CancellableHandle.await
        ((spawnWithCallback demoService () 0 cbReject3 ()
            (([SelectEvent.step (Except.ok (CancellationResult.Item 1))]
              ++ SelectEvent.step (Except.ok (CancellationResult.Item 3)) ::
                [SelectEvent.step (Except.ok (CancellationResult.Item 4))]) :
              List (SelectEvent Nat Nat))).handle_of_token 0)
      = LoopResult.ok ∧
    (spawnWithCallback demoService () 0 cbReject3 ()
        (([SelectEvent.step (Except.ok (CancellationResult.Item 1))]
          ++ SelectEvent.step (Except.ok (CancellationResult.Item 3)) ::
            [SelectEvent.step (Except.ok (CancellationResult.Item 4))]) :
          List (SelectEvent Nat Nat))).task.delivered
      = (spawnLoop cbReject3 ()
          ([SelectEvent.step (Except.ok (CancellationResult.Item 1))] :
            List (SelectEvent Nat Nat))).delivered ++ [3] ∧
    (spawnWithCallback demoService () 0 cbReject3 ()
        (([SelectEvent.step (Except.ok (CancellationResult.Item 1))]
          ++ SelectEvent.step (Except.ok (CancellationResult.Item 3)) ::
            [SelectEvent.step (Except.ok (CancellationResult.Item 4))]) :
          List (SelectEvent Nat Nat))).task.remaining
      = [SelectEvent.step (Except.ok (CancellationResult.Item 4))]) :=
  ⟨rfl, rfl, c4_callback_rejection_stops_ok demoService () 0 0 cbReject3 ()
    [SelectEvent.step (Except.ok (CancellationResult.Item 1))]
    [SelectEvent.step (Except.ok (CancellationResult.Item 4))] 3 3 rfl rfl⟩

/-- C5: for every execution in which some `run()` invocation returns
`CancellationResult::Break`, the loop ends with a successful outcome
(awaiting the `CancellableHandle` yields the inner `ok`), no further
`run()` invocation occurs (events after the `Break` iteration are left
unconsumed), and nothing further is delivered to the callback. -/
theorem c5_break_yields_ok {σ S H T E : Type} (svc : Service S H) (s : S)
    (tok t : CancellationToken) (cb : σ → T → Except T σ) (cs : σ)
    (pre post : List (SelectEvent T E))
    (hpre : (spawnLoop cb cs pre).outcome = LoopResult.pending) :
    CancellableHandle.await
        ((spawnWithCallback svc s tok cb cs
            (pre ++ SelectEvent.step (Except.ok CancellationResult.Break) :: post)).handle_of_token t)
      = LoopResult.ok ∧
    (spawnWithCallback svc s tok cb cs
        (pre ++ SelectEvent.step (Except.ok CancellationResult.Break) :: post)).task.delivered
      = (spawnLoop cb cs pre).delivered ∧
    (spawnWithCallback svc s tok cb cs
        (pre ++ SelectEvent.step (Except.ok CancellationResult.Break) :: post)).task.remaining
      = post := by
  have h := spawnLoop_append cb pre
    (SelectEvent.step (Except.ok CancellationResult.Break) :: post) cs hpre
  refine ⟨?_, ?_, ?_⟩ <;>
    simp [spawnWithCallback, CancellableHandle.await, CancellableHandle.new, h, spawnLoop]

/-- Witness for C5 at a concrete input: an accepted `Item 2`, then `Break`;
the loop ends with the inner `ok`, delivered `[2]`, and the event placed
after the `Break` is never consumed. -/
theorem c5_witness :
    (spawnLoop cbAccept ()
        ([SelectEvent.step (Except.ok (CancellationResult.Item 2))] :
          List (SelectEvent Nat Nat))).outcome = LoopResult.pending ∧
    (CancellableHandle.await
        ((spawnWithCallback demoService () 0 cbAccept ()
            (([SelectEvent.step (Except.ok (CancellationResult.Item 2))]
              ++ SelectEvent.step (Except.ok CancellationResult.Break) ::
                [SelectEvent.cancelled]) :
              List (SelectEvent Nat Nat))).handle_of_token 0)
      = LoopResult.ok ∧
    (spawnWithCallback demoService () 0 cbAccept ()
        (([SelectEvent.step (Except.ok (CancellationResult.Item 2))]
          ++ SelectEvent.step (Except.ok CancellationResult.Break) ::
            [SelectEvent.cancelled]) :
          List (SelectEvent Nat Nat))).task.delivered
      = (spawnLoop cbAccept ()
          ([SelectEvent.step (Except.ok (CancellationResult.Item 2))] :
            List (SelectEvent Nat Nat))).delivered ∧
    (spawnWithCallback demoService () 0 cbAccept ()
        (([SelectEvent.step (Except.ok (CancellationResult.Item 2))]
          ++ SelectEvent.step (Except.ok CancellationResult.Break) ::
            [SelectEvent.cancelled]) :
          List (SelectEvent Nat Nat))).task.remaining
      = [SelectEvent.cancelled]) :=
  ⟨rfl, c5_break_yields_ok demoService () 0 0 cbAccept ()
    [SelectEvent.step (Except.ok (CancellationResult.Item 2))]
    [SelectEvent.cancelled] rfl⟩

/-- C6: over any event trace, the values passed to the callback are
exactly, and in the same order, the payloads of the `Item` outcomes of the
`run()` invocations that occurred (the consumed prefix of the trace); and a
`Continue` outcome causes no callback invocation and does not terminate the
loop (running the loop from a `Continue` event is the same as running it on
the rest of the trace). -/
theorem c6_delivered_in_item_order {σ T E : Type} (cb : σ → T → Except T σ) (s : σ)
    (events : List (SelectEvent T E)) :
    (∃ consumed, consumed ++ (spawnLoop cb s events).remaining = events ∧
        (spawnLoop cb s events).delivered = itemValues consumed) ∧
    ∀ rest : List (SelectEvent T E),
      spawnLoop cb s (SelectEvent.step (Except.ok CancellationResult.Continue) :: rest)
        = spawnLoop cb s rest :=
  ⟨spawnLoop_delivered_eq_items cb s events, fun rest => rfl⟩

/-- C7: `spawnWithCallback` calls `new_handle` exactly once and before the
loop starts: the `inner` handle embedded in the returned
`CancellableHandle` is the first component of the single `new_handle`
application to the initial service state, the service state the spawned
loop owns is the second component of that same application (so the loop's
first `run()` happens after the handle construction), the handle is never
reconstructed (on the counting instrumentation the invocation counter in
the task's state is exactly 1), and the `Handle` is exposed directly
through read forwarding (`Deref`) and mutate forwarding (`DerefMut`). -/
theorem c7_new_handle_once_and_embedded {σ S H T E : Type} (svc : Service S H) (s : S)
    (tok t : CancellationToken) (cb : σ → T → Except T σ) (cs : σ)
    (events : List (SelectEvent T E)) (f : H → H) :
    ((spawnWithCallback svc s tok cb cs events).handle_of_token t).inner
      = (svc.new_handle s).1 ∧
    (spawnWithCallback svc s tok cb cs events).service_state_in_task
      = (svc.new_handle s).2 ∧
    CancellableHandle.deref ((spawnWithCallback svc s tok cb cs events).handle_of_token t)
      = ((spawnWithCallback svc s tok cb cs events).handle_of_token t).inner ∧
    (CancellableHandle.derefMut
        ((spawnWithCallback svc s tok cb cs events).handle_of_token t) f).inner
      = f (((spawnWithCallback svc s tok cb cs events).handle_of_token t).inner) ∧
    (spawnWithCallback (countingService svc) (s, 0) tok cb cs events).service_state_in_task.2
      = 1 :=
  ⟨rfl, rfl, rfl, rfl, rfl⟩

/-- C8: dropping a `CancellableHandle` without awaiting it and without
calling `cancel()` triggers no cancellation: the crate defines no `Drop`
impl, dropping the join handle detaches rather than aborts, and dropping
the token does not cancel it, so the cancellation state of every token is
unchanged and the spawned loop's run on any event trace is still exactly
`spawnLoop` of that trace (the task keeps running to its natural
conclusion unless the signal is triggered elsewhere). -/
theorem c8_drop_does_not_cancel {σ S H T E : Type} (svc : Service S H) (s : S)
    (tok t x : CancellationToken) (cb : σ → T → Except T σ) (cs : σ)
    (events : List (SelectEvent T E)) (w : World) :
    CancellableHandle.drop
        ((spawnWithCallback svc s tok cb cs events).handle_of_token t) w = w ∧
    isCancelled
        (CancellableHandle.drop
          ((spawnWithCallback svc s tok cb cs events).handle_of_token t) w) x
      = isCancelled w x ∧
    (spawnWithCallback svc s tok cb cs events).task = spawnLoop cb cs events :=
  ⟨rfl, rfl, rfl⟩

/-- C9: `spawn` is `spawn_with_callback` invoked with the default callback
`|_| Ok(())`: the two spawns are equal outright; the default callback
accepts every produced value and never signals failure; and the resulting
loop outcome coincides with the spec-modelled outcome of a loop that
discards results while staying alive to `Break`, cancellation, and error. -/
theorem c9_spawn_is_default_callback {S H T E : Type} (svc : Service S H) (s : S)
    (tok : CancellationToken) (events : List (SelectEvent T E)) :
    spawn svc s tok events = spawnWithCallback svc s tok defaultCallback () events ∧
    (∀ v : T, defaultCallback () v = Except.ok ()) ∧
    (spawn svc s tok events).task.outcome = specDiscardingOutcome events :=
  ⟨rfl, fun v => rfl, spawnLoop_default_outcome () events⟩

/-- C10: the convenience constructor `CancellationResult::item(v)` equals
`CancellationResult::Item(v.into())`, the `From<T>` conversion maps `v` to
`CancellationResult::Item(v)`, and neither constructor ever yields
`Continue` or `Break`. -/
theorem c10_item_constructors {α T : Type} (into : α → T) (a : α) (v : T) :
    CancellationResult.item into a = CancellationResult.Item (into a) ∧
    CancellationResult.ofValue v = CancellationResult.Item v ∧
    CancellationResult.item into a ≠ CancellationResult.Continue ∧
    CancellationResult.item into a ≠ CancellationResult.Break ∧
    CancellationResult.ofValue v ≠ CancellationResult.Continue ∧
    CancellationResult.ofValue v ≠ CancellationResult.Break :=
  by refine ⟨rfl, rfl, ?_, ?_, ?_, ?_⟩ <;> intro h <;> exact nomatch h

/-- C1 (evaluating the code at the failing scenario): `spawn_with_callback`
moves `cancellation_token` into the spawned task and then builds the
returned handle with `CancellableHandle::new(join_handle, inner)` — two
arguments for a three-parameter constructor, so the constructor's
`cancellation_token` argument is simply not supplied.  Concretely, with the
loop racing on token `0`: whatever token `t` fills the missing argument,
the handle stores exactly `t` (nothing ties it to the loop's token `0`),
and for the fresh token `1`, calling `cancel()` on the handle leaves the
loop's token `0` uncancelled, so the loop (here suspended in its first
`run()`, with an empty event trace) can never observe the signal and stays
pending instead of completing — contradicting the claim and the crate's own
test `should_complete_when_cancelled_via_handle`. -/
theorem c1_handle_cancel_disconnected_from_loop_token :
    (∀ t : CancellationToken,
        ((spawnWithCallback demoService () 0 cbAccept ()
            ([] : List (SelectEvent Nat Nat))).handle_of_token t).cancellation_token = t) ∧
    isCancelled
        (CancellableHandle.cancel
          ((spawnWithCallback demoService () 0 cbAccept ()
              ([] : List (SelectEvent Nat Nat))).handle_of_token 1) []) 0 = false ∧
    (spawnWithCallback demoService () 0 cbAccept ()
        ([] : List (SelectEvent Nat Nat))).task.outcome = LoopResult.pending :=
  ⟨fun t => rfl, rfl, rfl⟩
